import Mathlib

/-!
Shallow embedding of the session / queue state machine of the Discord music
bot in `src/main.py` (class `MusicBot`).  Pure functions below are direct
translations of the Python methods that mutate the cog's state; the file
system is modelled as the list of existing file names, and the calls the
session issues to the voice transport (`play`, `stop`) together with the
delivered completion signals are recorded in an event trace.
-/

/-- A resolved track: the `song_data` dictionary built in `play_music`
(src/main.py lines 290-296). -/
structure Song where
  filename : String
  title : String
  duration : Nat
  webpageUrl : String
  requester : String
deriving DecidableEq, Repr

/-- Status of the discord voice client, as observed through
`is_playing()` / `is_paused()`: `idle` means connected but neither. -/
inductive VCStatus
  | idle
  | playing
  | paused
deriving DecidableEq, Repr

/-- Observable interactions with the voice transport: a `play` call, a
`stop` call, and the delivery of a completion signal (the `after=`
callback scheduling `after_playback`). -/
inductive Ev
  | play
  | finish
  | stop
deriving DecidableEq, Repr

/-- The mutable fields of the `MusicBot` cog (src/main.py lines 158-164),
plus the modelled file system `fs` (names of files that currently exist
in the download cache) and the event trace. `voiceClient = none` means
disconnected; `lastChannelId` records whether a notification channel is
known; `nowPlayingMessage` records whether a live now-playing message
exists. -/
structure BotState where
  voiceClient : Option VCStatus
  currentSong : Option Song
  songQueue : List Song
  playHistory : List Song
  loop : Bool
  lastChannelId : Bool
  nowPlayingMessage : Bool
  fs : List String
  events : List Ev
deriving DecidableEq, Repr

/-- Environment for re-resolution: the set of `webpage_url`s for which
`ydl.download` succeeds (re-creating the cached file). -/
structure Env where
  redownloadOk : List String

/-- `self.voice_client and self.voice_client.is_playing()`. -/
def isPlaying (s : BotState) : Bool := s.voiceClient = some VCStatus.playing

/-- `self.voice_client and self.voice_client.is_paused()`. -/
def isPaused (s : BotState) : Bool := s.voiceClient = some VCStatus.paused

/-- `cleanup` (src/main.py lines 166-172): remove the cached file if it
exists. -/
def cleanup (s : BotState) (filename : String) : BotState :=
  { s with fs := s.fs.erase filename }

/-- The state mutation performed by `after_playback` (src/main.py lines
178-184) before it awaits `play_next_song`: if a current song exists, the
cached file is deleted unless looping, the song is appended to
`play_history`, and when looping it is re-inserted at the front of the
queue.  Note that the history append is unconditional on `loop`. -/
def afterStep (s : BotState) : BotState :=
  match s.currentSong with
  | none => s
  | some c =>
    let s1 := if s.loop then s else cleanup s c.filename
    let s2 := { s1 with playHistory := s1.playHistory ++ [c] }
    if s2.loop then { s2 with songQueue := c :: s2.songQueue } else s2

/-- The idle-teardown re-check performed after the 5 second sleep
(src/main.py lines 193-195): disconnect only if a client exists and it is
not playing. -/
def teardownCheck (s : BotState) : BotState :=
  match s.voiceClient with
  | none => s
  | some st => if st ≠ VCStatus.playing then { s with voiceClient := none } else s

/-- The fixed idle-teardown delay, `asyncio.sleep(5)` (src/main.py line 192). -/
def idleTeardownDelaySeconds : Nat := 5

/-- The tail of `play_next_song` once a playable file exists (src/main.py
lines 220-240): `voice_client.play(...)` (crash, modelled as `none`, if the
client is `None`), then post/refresh the now-playing message when a
notification channel is known. -/
def playTrack (s : BotState) : Option BotState :=
  match s.voiceClient with
  | none => none
  | some _ =>
    let s1 := { s with voiceClient := some VCStatus.playing,
                       events := s.events ++ [Ev.play] }
    some (if s1.lastChannelId then { s1 with nowPlayingMessage := true } else s1)

/-- `play_next_song` (src/main.py lines 188-240), with fuel bounding the
mutual recursion through `after_playback`; `none` means fuel exhaustion or
the `AttributeError` crash of calling `play` on a `None` client.  On an
empty queue: clear `current_song`, run the idle-teardown check, delete the
now-playing message.  Otherwise pop the front, set it current, re-download
on a missing file, and on re-download failure fall into
`after_playback(None)` (src/main.py line 217). -/
def playNextSongF (env : Env) : Nat → BotState → Option BotState
  | 0, _ => none
  | fuel + 1, s =>
    match s.songQueue with
    | [] =>
      let s1 := { s with currentSong := none }
      let s2 := teardownCheck s1
      some { s2 with nowPlayingMessage := false }
    | song :: rest =>
      let s1 := { s with songQueue := rest, currentSong := some song }
      if song.filename ∈ s1.fs then
        playTrack s1
      else if song.webpageUrl ∈ env.redownloadOk then
        playTrack { s1 with fs := song.filename :: s1.fs }
      else
        playNextSongF env fuel (afterStep s1)

/-- `after_playback` (src/main.py lines 174-186): the state mutation of
`afterStep`, then `play_next_song`. -/
def afterPlayback (env : Env) (fuel : Nat) (s : BotState) : Option BotState :=
  playNextSongF env fuel (afterStep s)

/-- Delivery of the transport completion signal for the in-flight track:
playback has ended (a present client is no longer playing), a `finish`
event is recorded, and the scheduled `after_playback` task runs
(src/main.py line 223). -/
def deliverFinish (env : Env) (fuel : Nat) (s : BotState) : Option BotState :=
  afterPlayback env fuel
    { s with voiceClient := s.voiceClient.map (fun _ => VCStatus.idle),
             events := s.events ++ [Ev.finish] }

/-- Result of a user command: `ok` when the success message is sent, `err`
when the error message is sent. -/
inductive CmdResult
  | ok
  | err
deriving DecidableEq, Repr

/-- The queue-admission part of `play_music` (src/main.py lines 307-320),
entered after resolution and enqueue-time download have succeeded: record
the notification channel; if currently playing, append to the back of the
queue; otherwise connect if needed, insert at the front, and run
`play_next_song`. -/
def playMusicCmd (env : Env) (fuel : Nat) (song : Song) (s : BotState) :
    Option BotState :=
  let s1 := { s with lastChannelId := true }
  if isPlaying s1 then
    some { s1 with songQueue := s1.songQueue ++ [song] }
  else
    let s2 := if s1.voiceClient = none
      then { s1 with voiceClient := some VCStatus.idle } else s1
    playNextSongF env fuel { s2 with songQueue := song :: s2.songQueue }

/-- `previous_song` (src/main.py lines 328-345): error on empty history;
if playing, push `current_song` back onto the front of the queue; pop the
last history entry onto the front of the queue; then either
`voice_client.stop()` (recorded, playback halts) or `play_next_song`
directly. -/
def previousSong (env : Env) (fuel : Nat) (s : BotState) :
    Option (BotState × CmdResult) :=
  if s.playHistory.isEmpty then some (s, CmdResult.err)
  else
    let s1 := if isPlaying s then
        match s.currentSong with
        | some c => { s with songQueue := c :: s.songQueue }
        | none => s
      else s
    match s1.playHistory.getLast? with
    | none => some (s1, CmdResult.err)
    | some prev =>
      let s2 := { s1 with playHistory := s1.playHistory.dropLast,
                          songQueue := prev :: s1.songQueue }
      if isPlaying s2 then
        some ({ s2 with voiceClient := some VCStatus.idle,
                        events := s2.events ++ [Ev.stop] }, CmdResult.ok)
      else
        (playNextSongF env fuel s2).map (fun t => (t, CmdResult.ok))

/-- `stop_music` (src/main.py lines 347-364): with a client present, clear
the queue and loop flag, stop and disconnect the client, clear
`current_song`, delete the now-playing message; otherwise report an
error without mutating anything. -/
def stopMusic (s : BotState) : BotState × CmdResult :=
  match s.voiceClient with
  | none => (s, CmdResult.err)
  | some _ =>
    ({ s with songQueue := [], loop := false,
              events := s.events ++ [Ev.stop],
              voiceClient := none, currentSong := none,
              nowPlayingMessage := false }, CmdResult.ok)

/-- `pause_music` (src/main.py lines 366-373). -/
def pauseMusic (s : BotState) : BotState × CmdResult :=
  if isPlaying s then
    ({ s with voiceClient := some VCStatus.paused }, CmdResult.ok)
  else (s, CmdResult.err)

/-- `resume_music` (src/main.py lines 375-382). -/
def resumeMusic (s : BotState) : BotState × CmdResult :=
  if isPaused s then
    ({ s with voiceClient := some VCStatus.playing }, CmdResult.ok)
  else (s, CmdResult.err)

/-- `skip` (src/main.py lines 411-418): `voice_client.stop()` when
playing (the completion callback will advance), error otherwise. -/
def skipCmd (s : BotState) : BotState × CmdResult :=
  if isPlaying s then
    ({ s with voiceClient := some VCStatus.idle,
              events := s.events ++ [Ev.stop] }, CmdResult.ok)
  else (s, CmdResult.err)

/-- The `clear` command (src/main.py lines 437-441): `self.song_queue = []`
and nothing else. -/
def clearQueue (s : BotState) : BotState := { s with songQueue := [] }

/-- Scan an event trace keeping track of whether a `play` is in flight; a
second `play` with no intervening `finish` or `stop` fails the scan. -/
def noDoublePlayAux : Bool → List Ev → Bool
  | _, [] => true
  | inFlight, Ev.play :: es => !inFlight && noDoublePlayAux true es
  | _, Ev.finish :: es => noDoublePlayAux false es
  | _, Ev.stop :: es => noDoublePlayAux false es

/-- The at-most-one-in-flight trace property: no two `play` calls occur
without an intervening completion signal or explicit `stop`. -/
def noDoublePlay (es : List Ev) : Bool := noDoublePlayAux false es

/-- A sequence of `play` commands issued in order. -/
def enqueueAll (env : Env) (fuel : Nat) (songs : List Song) (s : BotState) :
    Option BotState :=
  match songs with
  | [] => some s
  | song :: more => (playMusicCmd env fuel song s).bind (enqueueAll env fuel more)

/-- Concrete track with a cached file at `downloads/a.mp3`. -/
def songA : Song := ⟨"downloads/a.mp3", "A", 100, "https://a", "user"⟩

/-- Concrete track with a cached file at `downloads/b.mp3`. -/
def songB : Song := ⟨"downloads/b.mp3", "B", 120, "https://b", "user"⟩

/-- Concrete track whose cached file is missing in the scenarios below. -/
def songBad : Song := ⟨"downloads/x.mp3", "X", 90, "https://x", "user"⟩

/-- Environment in which every re-download fails. -/
def env0 : Env := ⟨[]⟩

/-- State about to advance: front of queue is `songBad`, whose file is
missing and whose re-download fails; behind it `songA`, whose file exists. -/
def c1State : BotState :=
  { voiceClient := some VCStatus.idle, currentSong := none,
    songQueue := [songBad, songA], playHistory := [], loop := false,
    lastChannelId := true, nowPlayingMessage := false,
    fs := ["downloads/a.mp3"], events := [] }

/-- Result of advancing from `c1State`. -/
def c1Result : BotState :=
  { voiceClient := some VCStatus.playing, currentSong := some songA,
    songQueue := [], playHistory := [songBad], loop := false,
    lastChannelId := true, nowPlayingMessage := true,
    fs := ["downloads/a.mp3"], events := [Ev.play] }

/-- Claim C1 (counterexample): advancing from `c1State`, where the front
track `songBad` has a missing local asset and re-resolution fails, does
drop `songBad` from the queue and plays the next track `songA`, but
`songBad` ends up in `playHistory`, contradicting the claim that the
failed track appears in neither queue, current, nor history. -/
theorem c1_counterexample :
    playNextSongF env0 2 c1State = some c1Result ∧
      songBad ∈ c1Result.playHistory ∧ c1Result.currentSong = some songA := by
  refine ⟨by decide, by decide, by decide⟩

/-- Claim C1 (amended): when the front track `bad` of the queue has a
missing local asset and re-resolution fails (loop disabled), `advance`
drops `bad` from the queue, appends it to `playHistory`, and the next
queued track plays. -/
theorem c1_amended (env : Env) (fuel : Nat) (s : BotState) (bad good : Song)
    (rest : List Song) (v : VCStatus)
    (hq : s.songQueue = bad :: good :: rest)
    (hbadf : bad.filename ∉ s.fs)
    (hbadr : bad.webpageUrl ∉ env.redownloadOk)
    (hloop : s.loop = false)
    (hgood : good.filename ∈ s.fs)
    (hv : s.voiceClient = some v) :
    ∃ s1, playNextSongF env (fuel + 2) s = some s1 ∧
      s1.currentSong = some good ∧ s1.songQueue = rest ∧
      s1.playHistory = s.playHistory ++ [bad] := by
  have herase : s.fs.erase bad.filename = s.fs := List.erase_of_not_mem hbadf
  simp only [show fuel + 2 = (fuel + 1) + 1 from rfl, playNextSongF, hq, hloop,
    afterStep, cleanup, playTrack, herase]
  simp only [hbadf, if_false, ite_false]
  rw [if_neg hbadr]
  simp only [playNextSongF, hloop, Bool.false_eq_true, if_false, ite_false, herase]
  rw [if_pos hgood]
  simp only [hv]
  by_cases hch : s.lastChannelId
  · simp only [hch, if_pos]
    exact ⟨_, rfl, rfl, rfl, rfl⟩
  · simp only [hch, if_neg, ite_false]
    exact ⟨_, rfl, rfl, rfl, rfl⟩

/-- Witness for `c1_amended` at the concrete state `c1State`. -/
theorem c1_amended_witness :
    ∃ s1, playNextSongF env0 2 c1State = some s1 ∧
      s1.currentSong = some songA ∧ s1.songQueue = [] ∧
      s1.playHistory = c1State.playHistory ++ [songBad] :=
  c1_amended env0 0 c1State songBad songA [] VCStatus.idle rfl (by decide)
    (by decide) rfl (by decide) rfl

/-- Looping state: `songA` is current with its file cached, loop enabled,
empty queue and empty history. -/
def c2State : BotState :=
  { voiceClient := some VCStatus.playing, currentSong := some songA,
    songQueue := [], playHistory := [], loop := true,
    lastChannelId := true, nowPlayingMessage := true,
    fs := ["downloads/a.mp3"], events := [Ev.play] }

/-- State after one completion signal in `c2State`. -/
def c2Result1 : BotState :=
  { voiceClient := some VCStatus.playing, currentSong := some songA,
    songQueue := [], playHistory := [songA], loop := true,
    lastChannelId := true, nowPlayingMessage := true,
    fs := ["downloads/a.mp3"], events := [Ev.play, Ev.finish, Ev.play] }

/-- State after a second completion signal. -/
def c2Result2 : BotState :=
  { voiceClient := some VCStatus.playing, currentSong := some songA,
    songQueue := [], playHistory := [songA, songA], loop := true,
    lastChannelId := true, nowPlayingMessage := true,
    fs := ["downloads/a.mp3"],
    events := [Ev.play, Ev.finish, Ev.play, Ev.finish, Ev.play] }

/-- Claim C2 (counterexample): with loop enabled and a single track,
each completion signal appends the current track to `playHistory`
(`after_playback` appends unconditionally, src/main.py line 181), so
history grows from `[]` to `[songA]` to `[songA, songA]`, contradicting
the claim that history is left unchanged and never grows. -/
theorem c2_counterexample :
    deliverFinish env0 1 c2State = some c2Result1 ∧
      deliverFinish env0 1 c2Result1 = some c2Result2 ∧
      c2State.playHistory = [] ∧ c2Result1.playHistory = [songA] ∧
      c2Result2.playHistory = [songA, songA] := by
  refine ⟨by decide, by decide, by decide, by decide, by decide⟩

/-- Claim C2 (amended): with loop enabled and a current track whose file
is cached, one completion signal re-inserts the track at the front of the
queue (whence it immediately plays again, leaving the queue as it was),
does not delete its cached asset, but appends the track to `playHistory`,
which therefore grows by one per finish. -/
theorem c2_amended (env : Env) (fuel : Nat) (s : BotState) (c : Song)
    (v : VCStatus)
    (hloop : s.loop = true) (hc : s.currentSong = some c)
    (hq : s.songQueue = []) (hf : c.filename ∈ s.fs)
    (hv : s.voiceClient = some v) :
    ∃ s1, deliverFinish env (fuel + 1) s = some s1 ∧
      s1.currentSong = some c ∧ s1.songQueue = [] ∧
      s1.playHistory = s.playHistory ++ [c] ∧ s1.fs = s.fs := by
  simp only [deliverFinish, afterPlayback, afterStep, hc, hloop, hq, hv,
    Option.map_some', playNextSongF, playTrack, if_true, ite_true]
  rw [if_pos hf]
  by_cases hch : s.lastChannelId
  · simp only [hch, ite_true]
    exact ⟨_, rfl, rfl, rfl, rfl, rfl⟩
  · simp only [hch, ite_false]
    exact ⟨_, rfl, rfl, rfl, rfl, rfl⟩

/-- Witness for `c2_amended` at the concrete state `c2State`. -/
theorem c2_amended_witness :
    ∃ s1, deliverFinish env0 1 c2State = some s1 ∧
      s1.currentSong = some songA ∧ s1.songQueue = [] ∧
      s1.playHistory = c2State.playHistory ++ [songA] ∧ s1.fs = c2State.fs :=
  c2_amended env0 0 c2State songA VCStatus.playing rfl rfl rfl (by decide) rfl

/-- State where `songB` is playing, `songA` has finished earlier (it is
the sole history entry) and its file is still cached. -/
def c3State : BotState :=
  { voiceClient := some VCStatus.playing, currentSong := some songB,
    songQueue := [], playHistory := [songA], loop := false,
    lastChannelId := true, nowPlayingMessage := true,
    fs := ["downloads/a.mp3", "downloads/b.mp3"], events := [] }

/-- State directly after `previous_song` on `c3State` (stop issued, finish
not yet processed). -/
def c3Mid : BotState :=
  { voiceClient := some VCStatus.idle, currentSong := some songB,
    songQueue := [songA, songB], playHistory := [], loop := false,
    lastChannelId := true, nowPlayingMessage := true,
    fs := ["downloads/a.mp3", "downloads/b.mp3"], events := [Ev.stop] }

/-- State after the stop-triggered finish of `songB` is processed. -/
def c3Result : BotState :=
  { voiceClient := some VCStatus.playing, currentSong := some songA,
    songQueue := [songB], playHistory := [songB], loop := false,
    lastChannelId := true, nowPlayingMessage := true,
    fs := ["downloads/a.mp3"], events := [Ev.stop, Ev.finish, Ev.play] }

/-- Claim C3 (counterexample): `previous_song` on `c3State` pushes the
playing track `songB` back onto the front of the queue and restores
`songA`, but once the stop-triggered finish is processed, `after_playback`
appends `songB` to `playHistory` (src/main.py line 181) and deletes its
cached file, so `songB` is in history — contradicting the claim that it
is absent from history. -/
theorem c3_counterexample :
    previousSong env0 1 c3State = some (c3Mid, CmdResult.ok) ∧
      deliverFinish env0 1 c3Mid = some c3Result ∧
      songB ∈ c3Result.playHistory ∧ c3Result.currentSong = some songA ∧
      c3Result.songQueue = [songB] := by
  refine ⟨by decide, by decide, by decide, by decide, by decide⟩

/-- Claim C3 (amended): with non-empty history and a track `b` playing,
`previous_song` pushes `b` onto the front of the queue ahead only of the
restored history track `a`; once the stop-triggered finish of `b` is
processed, `a` plays and `b` is at the front of the queue, but `b` is
also appended to `playHistory` (and, loop being off, its cached asset is
deleted). -/
theorem c3_amended (env : Env) (fuel fl : Nat) (s : BotState) (a b : Song)
    (hist : List Song)
    (hh : s.playHistory = hist ++ [a])
    (hc : s.currentSong = some b)
    (hv : s.voiceClient = some VCStatus.playing)
    (hloop : s.loop = false)
    (hf : a.filename ∈ s.fs.erase b.filename) :
    ∃ smid s1, previousSong env fuel s = some (smid, CmdResult.ok) ∧
      deliverFinish env (fl + 1) smid = some s1 ∧
      s1.currentSong = some a ∧ s1.songQueue = b :: s.songQueue ∧
      s1.playHistory = hist ++ [b] := by
  have hne : (hist ++ [a]).isEmpty = false := by cases hist <;> rfl
  have hstep : ∃ s1,
      deliverFinish env (fl + 1)
        { voiceClient := some VCStatus.idle, currentSong := some b,
          songQueue := a :: b :: s.songQueue, playHistory := hist,
          loop := s.loop, lastChannelId := s.lastChannelId,
          nowPlayingMessage := s.nowPlayingMessage, fs := s.fs,
          events := s.events ++ [Ev.stop] } = some s1 ∧
      s1.currentSong = some a ∧ s1.songQueue = b :: s.songQueue ∧
      s1.playHistory = hist ++ [b] := by
    simp only [deliverFinish, afterPlayback, afterStep, hloop,
      Option.map_some', Bool.false_eq_true, ite_false, cleanup, playNextSongF,
      playTrack]
    rw [if_pos hf]
    by_cases hch : s.lastChannelId
    · simp only [hch, ite_true]
      exact ⟨_, rfl, rfl, rfl, rfl⟩
    · simp only [hch, ite_false]
      exact ⟨_, rfl, rfl, rfl, rfl⟩
  obtain ⟨s1, h1, h2, h3, h4⟩ := hstep
  refine ⟨_, s1, ?_, h1, h2, h3, h4⟩
  simp only [previousSong, hh, hne, Bool.false_eq_true, ite_false, isPlaying,
    hv, hc, List.getLast?_concat, List.dropLast_concat, decide_eq_true_eq,
    ite_true, if_true, reduceCtorEq, decide_True]

/-- Witness for `c3_amended` at the concrete state `c3State`. -/
theorem c3_amended_witness :
    ∃ smid s1, previousSong env0 1 c3State = some (smid, CmdResult.ok) ∧
      deliverFinish env0 1 smid = some s1 ∧
      s1.currentSong = some songA ∧ s1.songQueue = songB :: c3State.songQueue ∧
      s1.playHistory = [] ++ [songB] :=
  c3_amended env0 1 0 c3State songA songB [] rfl rfl rfl rfl (by decide)

/-- The initial state of the cog (src/main.py lines 158-164), with two
cached files present in the download directory. -/
def initState : BotState :=
  { voiceClient := none, currentSong := none, songQueue := [],
    playHistory := [], loop := false, lastChannelId := false,
    nowPlayingMessage := false,
    fs := ["downloads/a.mp3", "downloads/b.mp3"], events := [] }

/-- State after enqueueing `songA` from idle: one `play` issued. -/
def c4s1 : BotState :=
  { voiceClient := some VCStatus.playing, currentSong := some songA,
    songQueue := [], playHistory := [], loop := false,
    lastChannelId := true, nowPlayingMessage := true,
    fs := ["downloads/a.mp3", "downloads/b.mp3"], events := [Ev.play] }

/-- State after pausing: `songA` still in flight, transport paused. -/
def c4s2 : BotState :=
  { voiceClient := some VCStatus.paused, currentSong := some songA,
    songQueue := [], playHistory := [], loop := false,
    lastChannelId := true, nowPlayingMessage := true,
    fs := ["downloads/a.mp3", "downloads/b.mp3"], events := [Ev.play] }

/-- State after enqueueing `songB` while paused: a second `play` issued
with no intervening finish or stop, and the in-flight `songA` clobbered. -/
def c4s3 : BotState :=
  { voiceClient := some VCStatus.playing, currentSong := some songB,
    songQueue := [], playHistory := [], loop := false,
    lastChannelId := true, nowPlayingMessage := true,
    fs := ["downloads/a.mp3", "downloads/b.mp3"],
    events := [Ev.play, Ev.play] }

/-- Claim C4 (counterexample): `play_music` gates on `is_playing()`
(src/main.py line 309), which is false while paused, so the trace
enqueue `songA` → pause → enqueue `songB` issues two `play` calls with no
intervening completion signal or stop, violating the at-most-one-in-flight
property (and `songA` is clobbered from `current` without ever reaching
history or the queue). -/
theorem c4_counterexample :
    playMusicCmd env0 1 songA initState = some c4s1 ∧
      pauseMusic c4s1 = (c4s2, CmdResult.ok) ∧
      playMusicCmd env0 1 songB c4s2 = some c4s3 ∧
      c4s3.events = [Ev.play, Ev.play] ∧
      noDoublePlay c4s3.events = false := by
  refine ⟨by decide, by decide, by decide, by decide, by decide⟩

/-- Claim C4 (amended): an enqueue arriving while the transport is
actually playing issues no `play` call — it only appends to the back of
the queue (and records the channel); but an enqueue arriving while a
track is in flight and paused falls into the idle branch and does issue a
second `play`. -/
theorem c4_amended (env : Env) (fuel : Nat) (song : Song) (s : BotState)
    (h : s.voiceClient = some VCStatus.playing) :
    playMusicCmd env fuel song s =
      some { s with lastChannelId := true,
                    songQueue := s.songQueue ++ [song] } := by
  simp only [playMusicCmd, isPlaying, h, decide_True, if_true, ite_true,
    decide_eq_true_eq, reduceCtorEq]

/-- Witness for `c4_amended` at the concrete state `c2State`. -/
theorem c4_amended_witness :
    playMusicCmd env0 1 songB c2State =
      some { c2State with lastChannelId := true,
                          songQueue := c2State.songQueue ++ [songB] } :=
  c4_amended env0 1 songB c2State rfl

/-- Claim C5: with a voice client present (non-empty queue, active track),
`stop_music` empties the queue, clears `current_song` and the loop flag,
disconnects, and removes the live now-playing message, while
`play_history` is untouched; the completion signal that the issued
`voice_client.stop()` later delivers leaves all of that intact. -/
theorem c5_stop_clears (env : Env) (fuel : Nat) (s : BotState) (v : VCStatus)
    (hv : s.voiceClient = some v)
    (hq : s.songQueue ≠ []) (hc : s.currentSong.isSome = true) :
    ∃ s1, stopMusic s = (s1, CmdResult.ok) ∧
      s1.songQueue = [] ∧ s1.currentSong = none ∧ s1.loop = false ∧
      s1.voiceClient = none ∧ s1.nowPlayingMessage = false ∧
      s1.playHistory = s.playHistory ∧
      ∃ s2, deliverFinish env (fuel + 1) s1 = some s2 ∧
        s2.songQueue = [] ∧ s2.currentSong = none ∧ s2.loop = false ∧
        s2.voiceClient = none ∧ s2.playHistory = s.playHistory := by
  simp only [stopMusic, hv]
  refine ⟨_, rfl, rfl, rfl, rfl, rfl, rfl, rfl, ?_⟩
  simp only [deliverFinish, afterPlayback, afterStep, Option.map_none',
    playNextSongF, teardownCheck]
  exact ⟨_, rfl, rfl, rfl, rfl, rfl, rfl⟩

/-- Witness for `c5_stop_clears` at the concrete state `c3Mid`, which has
a connected client, a non-empty queue and a current track. -/
theorem c5_stop_clears_witness :
    ∃ s1, stopMusic c3Mid = (s1, CmdResult.ok) ∧
      s1.songQueue = [] ∧ s1.currentSong = none ∧ s1.loop = false ∧
      s1.voiceClient = none ∧ s1.nowPlayingMessage = false ∧
      s1.playHistory = c3Mid.playHistory ∧
      ∃ s2, deliverFinish env0 1 s1 = some s2 ∧
        s2.songQueue = [] ∧ s2.currentSong = none ∧ s2.loop = false ∧
        s2.voiceClient = none ∧ s2.playHistory = c3Mid.playHistory :=
  c5_stop_clears env0 0 c3Mid VCStatus.idle rfl (by decide) (by decide)

/-- Helper: while the transport is playing, a sequence of enqueues only
appends the songs to the back of the queue, in call order. -/
theorem enqueueAll_playing (env : Env) (fuel : Nat) (songs : List Song) :
    ∀ s : BotState, s.voiceClient = some VCStatus.playing →
      ∃ s1, enqueueAll env fuel songs s = some s1 ∧
        s1.songQueue = s.songQueue ++ songs ∧
        s1.voiceClient = some VCStatus.playing := by
  induction songs with
  | nil =>
    intro s h
    exact ⟨s, rfl, by simp, h⟩
  | cons song more ih =>
    intro s h
    have hstep : playMusicCmd env fuel song s =
        some { s with lastChannelId := true,
                      songQueue := s.songQueue ++ [song] } := by
      simp only [playMusicCmd, isPlaying, h, decide_True, if_true, ite_true,
        decide_eq_true_eq, reduceCtorEq]
    have hbase : ({ s with lastChannelId := true, songQueue := s.songQueue ++ [song] } : BotState).voiceClient = some VCStatus.playing := h
    obtain ⟨s1, h1, h2, h3⟩ := ih _ hbase
    refine ⟨s1, ?_, ?_, h3⟩
    · simp only [enqueueAll, hstep, Option.some_bind]
      exact h1
    · rw [h2]
      simp

/-- Claim C6: enqueues issued while a track is playing append to the back
of the queue in call order (FIFO), and `play_next_song` always pops
exactly the front element of the queue as the track it starts. -/
theorem c6_fifo (env : Env) (fuel : Nat) (songs : List Song) (s s2 : BotState)
    (x : Song) (rest : List Song) (v : VCStatus)
    (h : s.voiceClient = some VCStatus.playing)
    (hq2 : s2.songQueue = x :: rest) (hv2 : s2.voiceClient = some v)
    (hf2 : x.filename ∈ s2.fs) :
    (∃ s1, enqueueAll env fuel songs s = some s1 ∧
      s1.songQueue = s.songQueue ++ songs ∧
      s1.voiceClient = some VCStatus.playing) ∧
    (∃ s3, playNextSongF env (fuel + 1) s2 = some s3 ∧
      s3.currentSong = some x ∧ s3.songQueue = rest) := by
  refine ⟨enqueueAll_playing env fuel songs s h, ?_⟩
  simp only [playNextSongF, hq2]
  rw [if_pos hf2]
  simp only [playTrack, hv2]
  by_cases hch : s2.lastChannelId
  · simp only [hch, ite_true]
    exact ⟨_, rfl, rfl, rfl⟩
  · simp only [hch, ite_false]
    exact ⟨_, rfl, rfl, rfl⟩

/-- Witness for `c6_fifo`: two tracks enqueued while `c2State` is playing,
and an advance from `c1State` popping its front. -/
theorem c6_fifo_witness :
    (∃ s1, enqueueAll env0 1 [songA, songB] c2State = some s1 ∧
      s1.songQueue = c2State.songQueue ++ [songA, songB] ∧
      s1.voiceClient = some VCStatus.playing) ∧
    (∃ s3, playNextSongF env0 2 c3Mid = some s3 ∧
      s3.currentSong = some songA ∧ s3.songQueue = [songB]) :=
  c6_fifo env0 1 [songA, songB] c2State c3Mid songA [songB] VCStatus.idle
    rfl rfl rfl (by decide)

/-- Family of states in the divergent loop: loop enabled, queue holding
only `songBad` (missing file, failing re-download), parameterised by the
history and current track accumulated so far. -/
def c7Loop (hist : List Song) (cur : Option Song) : BotState :=
  { voiceClient := some VCStatus.idle, currentSong := cur,
    songQueue := [songBad], playHistory := hist, loop := true,
    lastChannelId := false, nowPlayingMessage := false,
    fs := [], events := [] }

/-- Helper: from any state of the `c7Loop` family, `play_next_song`
re-enters the family with one more history entry, so it exhausts any
amount of fuel. -/
theorem c7Loop_spin (n : Nat) :
    ∀ (hist : List Song) (cur : Option Song),
      playNextSongF env0 n (c7Loop hist cur) = none := by
  induction n with
  | zero =>
    intro hist cur
    rfl
  | succ n ih =>
    intro hist cur
    have hstep : playNextSongF env0 (n + 1) (c7Loop hist cur) =
        playNextSongF env0 n (c7Loop (hist ++ [songBad]) (some songBad)) := rfl
    rw [hstep]
    exact ih (hist ++ [songBad]) (some songBad)

/-- Claim C7 (counterexample): starting from `c7Loop [] none` — loop
enabled, queue `[songBad]` whose file is missing and whose re-resolution
always fails — `play_next_song` never terminates: `after_playback`
re-inserts the failed current track at the front of the queue
(src/main.py line 184) before recursing, so the queue is not strictly
reduced and no amount of fuel suffices. -/
theorem c7_counterexample :
    ¬ ∃ n : Nat, (playNextSongF env0 n (c7Loop [] none)).isSome = true := by
  rintro ⟨n, hn⟩
  rw [c7Loop_spin n [] none] at hn
  simp at hn

/-- Claim C7 (amended): with `loop` disabled, every recursive pass of
`play_next_song` strictly reduces the queue, so it terminates (any fuel
exceeding the queue length returns a result) whenever a voice client is
present; with `loop` enabled this fails (see the counterexample). -/
theorem c7_amended (env : Env) :
    ∀ (fuel : Nat) (s : BotState) (v : VCStatus), s.loop = false →
      s.voiceClient = some v → s.songQueue.length < fuel →
      (playNextSongF env fuel s).isSome = true := by
  intro fuel
  induction fuel with
  | zero =>
    intro s v _ _ hlen
    omega
  | succ n ih =>
    intro s v hloop hv hlen
    cases hq : s.songQueue with
    | nil =>
      simp [playNextSongF, hq]
    | cons x rest =>
      by_cases hf : x.filename ∈ s.fs
      · simp only [playNextSongF, hq]
        rw [if_pos hf]
        simp [playTrack, hv]
      · by_cases hr : x.webpageUrl ∈ env.redownloadOk
        · simp only [playNextSongF, hq]
          rw [if_neg hf, if_pos hr]
          simp [playTrack, hv]
        · simp only [playNextSongF, hq]
          rw [if_neg hf, if_neg hr]
          have hstep : afterStep { s with songQueue := rest, currentSong := some x } =
              { s with songQueue := rest, currentSong := some x,
                       fs := s.fs.erase x.filename,
                       playHistory := s.playHistory ++ [x] } := by
            simp [afterStep, cleanup, hloop]
          rw [hstep]
          apply ih _ v
          · exact hloop
          · exact hv
          · show rest.length < n
            rw [hq] at hlen
            simp only [List.length_cons] at hlen
            omega

/-- Witness for `c7_amended` at the concrete state `c1State` (loop off,
two queued tracks, fuel 3). -/
theorem c7_amended_witness :
    (playNextSongF env0 3 c1State).isSome = true :=
  c7_amended env0 3 c1State VCStatus.idle rfl rfl (by decide)

/-- Claim C8: `resume` while not paused, `skip` while nothing is playing,
and `previous` with empty history each report an error and return the
state entirely unchanged. -/
theorem c8_invalid_no_mutation (env : Env) (fuel : Nat) (s : BotState)
    (hp : isPaused s = false) (hpl : isPlaying s = false)
    (hh : s.playHistory = []) :
    resumeMusic s = (s, CmdResult.err) ∧
      skipCmd s = (s, CmdResult.err) ∧
      previousSong env fuel s = some (s, CmdResult.err) := by
  refine ⟨?_, ?_, ?_⟩
  · simp [resumeMusic, hp]
  · simp [skipCmd, hpl]
  · simp [previousSong, hh]

/-- Witness for `c8_invalid_no_mutation` at the concrete state
`initState` (disconnected, idle, empty history). -/
theorem c8_invalid_no_mutation_witness :
    resumeMusic initState = (initState, CmdResult.err) ∧
      skipCmd initState = (initState, CmdResult.err) ∧
      previousSong env0 1 initState = some (initState, CmdResult.err) :=
  c8_invalid_no_mutation env0 1 initState (by decide) (by decide) rfl

/-- Claim C9: when the queue drains, `play_next_song` sets `current_song`
to `None` and the fixed 5-second idle-teardown delay begins; the
post-delay check disconnects only when the client is re-checked and found
not playing, so a state in which an enqueue has set the client playing is
left connected, while a still-idle client is disconnected. -/
theorem c9_idle_teardown (env : Env) (fuel : Nat) (s s2 s3 : BotState)
    (v : VCStatus)
    (hq : s.songQueue = [])
    (h2 : s2.voiceClient = some VCStatus.playing)
    (h3 : s3.voiceClient = some v) (hv : v ≠ VCStatus.playing) :
    idleTeardownDelaySeconds = 5 ∧
      (∃ s1, playNextSongF env (fuel + 1) s = some s1 ∧
        s1.currentSong = none) ∧
      teardownCheck s2 = s2 ∧
      (teardownCheck s3).voiceClient = none := by
  have tc : ∀ t : BotState, (teardownCheck t).currentSong = t.currentSong := by
    intro t
    unfold teardownCheck
    cases t.voiceClient with
    | none => rfl
    | some st => by_cases hst : st ≠ VCStatus.playing <;> simp [hst]
  refine ⟨rfl, ?_, ?_, ?_⟩
  · simp only [playNextSongF, hq]
    refine ⟨_, rfl, ?_⟩
    rw [tc]
  · simp [teardownCheck, h2]
  · simp [teardownCheck, h3, hv]

/-- Witness for `c9_idle_teardown` at `initState` (empty queue), `c4s1`
(re-checked and found playing) and `c4s2` (re-checked and found paused). -/
theorem c9_idle_teardown_witness :
    idleTeardownDelaySeconds = 5 ∧
      (∃ s1, playNextSongF env0 1 initState = some s1 ∧
        s1.currentSong = none) ∧
      teardownCheck c4s1 = c4s1 ∧
      (teardownCheck c4s2).voiceClient = none :=
  c9_idle_teardown env0 0 initState c4s1 c4s2 VCStatus.paused rfl rfl rfl
    (by decide)

/-- Claim C10: the `clear` command empties the queue and changes nothing
else — current track, history, loop flag, voice client, now-playing
message, cached files, transport events and the notification channel are
all untouched. -/
theorem c10_clear_frame (s : BotState) :
    (clearQueue s).songQueue = [] ∧
      (clearQueue s).currentSong = s.currentSong ∧
      (clearQueue s).playHistory = s.playHistory ∧
      (clearQueue s).loop = s.loop ∧
      (clearQueue s).voiceClient = s.voiceClient ∧
      (clearQueue s).nowPlayingMessage = s.nowPlayingMessage ∧
      (clearQueue s).fs = s.fs ∧
      (clearQueue s).events = s.events ∧
      (clearQueue s).lastChannelId = s.lastChannelId :=
  ⟨rfl, rfl, rfl, rfl, rfl, rfl, rfl, rfl, rfl⟩
